import Mathlib

/-
  Shallow embedding of the payment reconciliation and lesson-delivery core of
  the english_courses_bot repository (src/app_server.py, src/db.py,
  src/payments/*, src/lessons_scheduler.py, src/bot.py).

  Conventions of the embedding:
  * the relational store (Postgres) is a `DbState` record of lists; SQL
    statements become pure list operations mirroring their WHERE clauses;
  * timestamps are seconds since an arbitrary epoch (`Nat`); Python
    `timedelta(days=d)` is `d * daySeconds`;
  * payment/subscription statuses are the literal strings the source stores
    in the TEXT columns;
  * external collaborators (the HMAC primitive from hashlib/hmac, the
    Telegram `bot.send_message` call, the gateway HTTP responses) are
    parameters of the handler functions: `hmacSha256Hex` computes the hex
    digest, `sendOk chat text` is `true` iff the send returns without
    raising, and `remoteStatus` is the `status` field of the gateway's JSON
    answer to the `fetch_payment_status` HTTP GET;
  * a handler returns its HTTP response (`Except (code, detail) body`), the
    resulting store state, and a trace of observable events (ledger lookups
    by external id, and successfully delivered messages).
-/

namespace CoursesBot

/-- One row of the `payments` table (db.py DDL, lines 38-54). -/
structure Payment where
  id : String
  user_id : Int
  provider : String
  status : String
  amount_cents : Int
  currency : String
  plan : Option String
  external_id : Option String
  idempotency_key : Option String
  created_at : Nat
  paid_at : Option Nat
  deriving DecidableEq, Repr

/-- One row of the `subscriptions` table, minus the key (db.py DDL, lines 31-36). -/
structure Subscription where
  status : String
  expires_at : Option Nat
  updated_at : Nat
  deriving DecidableEq, Repr

/-- One row of the `courses` table (db.py DDL). -/
structure Course where
  id : String
  title : String
  welcome_video_url : Option String
  lesson_interval_days : Nat
  deriving DecidableEq, Repr

/-- One row of the `lessons` table (db.py DDL). -/
structure Lesson where
  course_id : String
  lesson_index : Int
  title : String
  video_url : String
  materials_url : Option String
  deriving DecidableEq, Repr

/-- One row of the `enrollments` table (db.py DDL). -/
structure Enrollment where
  user_id : Int
  course_id : String
  started_at : Nat
  next_lesson_index : Int
  next_lesson_at : Nat
  last_sent_at : Option Nat
  deriving DecidableEq, Repr

/-- The relational store: the tables the claims touch. -/
structure DbState where
  payments : List Payment
  subscriptions : List (Int × Subscription)
  courses : List Course
  lessons : List Lesson
  enrollments : List Enrollment
  deriving DecidableEq, Repr

/-- Seconds in one day: `timedelta(days=1)`. -/
def daySeconds : Nat := 86400

/-- Python str.lower() (for the ASCII gateway status vocabulary), written over
the character list so it evaluates by kernel reduction. -/
def py_lower (s : String) : String := String.mk (s.data.map Char.toLower)

/-- Python str.strip(): whitespace removed from both ends, written over the
character list. -/
def py_strip (s : String) : String :=
  String.mk
    (((s.data.dropWhile Char.isWhitespace).reverse.dropWhile Char.isWhitespace).reverse)

/-- Python str.startswith(pre). -/
def py_startsWith (pre s : String) : Bool := s.data.take pre.data.length == pre.data

/-- Python s[n:]. -/
def py_drop (n : Nat) (s : String) : String := String.mk (s.data.drop n)

/-- Python s.split(sep) for a one-character separator, structurally recursive. -/
def py_split (sep : Char) (s : String) : List String :=
  go s.data []
where
  go : List Char → List Char → List String
    | [], acc => [String.mk acc.reverse]
    | c :: cs, acc =>
      if c = sep then String.mk acc.reverse :: go cs [] else go cs (c :: acc)

/-- Insertion into a list sorted by next_lesson_at. -/
def insertByDue (e : Enrollment) : List Enrollment → List Enrollment
  | [] => [e]
  | x :: xs =>
    if e.next_lesson_at ≤ x.next_lesson_at then e :: x :: xs else x :: insertByDue e xs

/-- ORDER BY next_lesson_at ASC as a structurally recursive sort. -/
def sortByDue : List Enrollment → List Enrollment
  | [] => []
  | x :: xs => insertByDue x (sortByDue xs)

/-- Db.get_payment (db.py 242-247): SELECT * FROM payments WHERE id=%s. -/
def get_payment (st : DbState) (paymentId : String) : Option Payment :=
  st.payments.find? (fun p => p.id == paymentId)

/-- Db.find_payment_by_external_id (db.py 249-254):
SELECT * FROM payments WHERE provider=%s AND external_id=%s. -/
def find_payment_by_external_id (st : DbState) (provider externalId : String) :
    Option Payment :=
  st.payments.find? (fun p => p.provider == provider && p.external_id == some externalId)

/-- Db.mark_payment_paid (db.py 256-270): returns the row's user_id (None when
the row is missing); updates status and paid_at only when the row was not
already 'paid'. -/
def mark_payment_paid (st : DbState) (now : Nat) (paymentId : String) :
    Option Int × DbState :=
  match get_payment st paymentId with
  | none => (none, st)
  | some row =>
    if row.status = "paid" then (some row.user_id, st)
    else
      (some row.user_id,
        { st with payments := st.payments.map (fun p =>
            if p.id = paymentId then { p with status := "paid", paid_at := some now }
            else p) })

/-- Db.mark_payment_status (db.py 272-277): UPDATE payments SET status=%s WHERE id=%s. -/
def mark_payment_status (st : DbState) (paymentId status : String) : DbState :=
  { st with payments := st.payments.map (fun p =>
      if p.id = paymentId then { p with status := status } else p) }

/-- Db.set_subscription (db.py 147-167): upsert of the subscriptions row;
active with days = d sets expires_at to now + d days, active without days sets
it to NULL, inactive sets status 'revoked' and expires_at NULL. -/
def set_subscription (st : DbState) (now : Nat) (userId : Int) (active : Bool)
    (days : Option Nat) : DbState :=
  let status := if active then "active" else "revoked"
  let expires_at : Option Nat :=
    if active then days.map (fun d => now + d * daySeconds) else none
  { st with subscriptions :=
      (userId, { status := status, expires_at := expires_at, updated_at := now }) ::
        st.subscriptions.filter (fun kv => kv.1 != userId) }

/-- Lookup of the subscriptions row by primary key (the SELECT of
Db.is_subscribed, db.py 169-175). -/
def get_subscription (st : DbState) (userId : Int) : Option Subscription :=
  (st.subscriptions.find? (fun kv => kv.1 == userId)).map (fun kv => kv.2)

/-- Db.get_course (db.py 307-312). -/
def get_course (st : DbState) (courseId : String) : Option Course :=
  st.courses.find? (fun c => c.id == courseId)

/-- Db.get_lesson (db.py 314-319): WHERE course_id=%s AND lesson_index=%s. -/
def get_lesson (st : DbState) (courseId : String) (lessonIndex : Int) : Option Lesson :=
  st.lessons.find? (fun l => l.course_id == courseId && l.lesson_index == lessonIndex)

/-- Lookup of an enrollments row by its primary key (Db.get_enrollment, db.py 340-345). -/
def get_enrollment (st : DbState) (userId : Int) (courseId : String) : Option Enrollment :=
  st.enrollments.find? (fun e => e.user_id == userId && e.course_id == courseId)

/-- Db.ensure_enrollment (db.py 321-338): raises when the course is missing;
otherwise INSERT ... ON CONFLICT DO NOTHING of a fresh row at index 1 due now,
then re-reads the row. -/
def ensure_enrollment (st : DbState) (now : Nat) (userId : Int) (courseId : String) :
    Except String (DbState × Option Enrollment) :=
  match get_course st courseId with
  | none => .error ("Course not found: " ++ courseId)
  | some _ =>
    let st1 :=
      match get_enrollment st userId courseId with
      | some _ => st
      | none =>
        { st with enrollments := st.enrollments ++
            [{ user_id := userId, course_id := courseId, started_at := now,
               next_lesson_index := 1, next_lesson_at := now, last_sent_at := none }] }
    .ok (st1, get_enrollment st1 userId courseId)

/-- Db.list_due_enrollments (db.py 347-358): WHERE next_lesson_at <= now
ORDER BY next_lesson_at ASC LIMIT limit. -/
def list_due_enrollments (st : DbState) (now : Nat) (limit : Nat) : List Enrollment :=
  (sortByDue (st.enrollments.filter (fun e => decide (e.next_lesson_at ≤ now)))).take limit

/-- Db.advance_enrollment_after_sent (db.py 360-371): sets the row's
next_lesson_index, next_lesson_at = now + interval days, last_sent_at = now. -/
def advance_enrollment_after_sent (st : DbState) (now : Nat) (userId : Int)
    (courseId : String) (nextLessonIndex : Int) (lessonIntervalDays : Nat) : DbState :=
  { st with enrollments := st.enrollments.map (fun e =>
      if e.user_id = userId ∧ e.course_id = courseId then
        { e with next_lesson_index := nextLessonIndex,
                 next_lesson_at := now + lessonIntervalDays * daySeconds,
                 last_sent_at := some now }
      else e) }

/-- MercadoPagoPixProvider.fetch_payment_status mapping (mercadopago_pix.py
66-80): the gateway's status string, lowercased, mapped to the 3-valued
result. -/
def mp_map_status (s : String) : String :=
  let sl := py_lower s
  if sl = "approved" then "paid"
  else if sl = "cancelled" then "cancelled"
  else if sl = "rejected" ∨ sl = "refunded" ∨ sl = "charged_back" then "cancelled"
  else "pending"

/-- MercadoPago fetch_payment_status returns (mapped status, lowercased raw). -/
def mp_fetch_payment_status (remoteStatus : String) : String × String :=
  (mp_map_status remoteStatus, py_lower remoteStatus)

/-- YooKassaProvider.fetch_payment_status mapping (yookassa.py 96-103). -/
def yk_map_status (s : String) : String :=
  let sl := py_lower s
  if sl = "succeeded" then "paid"
  else if sl = "canceled" then "cancelled"
  else "pending"

/-- YooKassa fetch_payment_status returns (mapped status, lowercased raw). -/
def yk_fetch_payment_status (remoteStatus : String) : String × String :=
  (yk_map_status remoteStatus, py_lower remoteStatus)

/-- MockYooKassaProvider.fetch_payment_status (mock_yookassa.py 38-39):
self._state.get(external_id, "pending"), None. -/
def mock_fetch_payment_status (state : List (String × String)) (externalId : String) :
    String × Option String :=
  (((state.find? (fun kv => kv.1 == externalId)).map (fun kv => kv.2)).getD "pending", none)

/-- Observable side effects of a handler: ledger lookups by external id and
successfully delivered chat messages. -/
inductive Event where
  | lookup (provider : String) (externalId : String)
  | msg (chat : Int) (text : String)
  deriving DecidableEq, Repr

/-- The body a handler answers with on the non-error path. -/
inductive WebhookOk where
  | ignored
  | ignoredNotConfigured
  | paid
  | notPaid (raw : String)
  deriving DecidableEq, Repr

instance exceptDecEq {ε α : Type} [DecidableEq ε] [DecidableEq α] :
    DecidableEq (Except ε α) := fun x y =>
  match x, y with
  | .error e, .error f =>
    if h : e = f then isTrue (by rw [h]) else isFalse (by intro hc; cases hc; exact h rfl)
  | .error _, .ok _ => isFalse (by intro hc; cases hc)
  | .ok _, .error _ => isFalse (by intro hc; cases hc)
  | .ok a, .ok b =>
    if h : a = b then isTrue (by rw [h]) else isFalse (by intro hc; cases hc; exact h rfl)

/-- Result of a request handler: HTTP response (error = (status code, detail)),
resulting store state, event trace. -/
structure HandlerResult where
  resp : Except (Nat × String) WebhookOk
  state : DbState
  events : List Event
  deriving DecidableEq, Repr

/-- lessons_scheduler._format_welcome (lessons_scheduler.py 7-11). -/
def format_welcome (c : Course) : String :=
  let w := py_strip (c.welcome_video_url.getD "")
  if w = "" then "👋 Добро пожаловать!\n"
  else "👋 Добро пожаловать!\n\n🎥 Приветственное видео:\n" ++ w ++ "\n"

/-- lessons_scheduler._format_lesson (lessons_scheduler.py 14-22); an empty
materials_url is falsy in Python and omitted like a missing one. -/
def format_lesson (l : Lesson) : String :=
  let text := "🎬 Урок " ++ toString l.lesson_index ++ ": " ++ l.title ++
    "\n\nВидео:\n" ++ l.video_url ++ "\n"
  match l.materials_url with
  | some m => if m = "" then text else text ++ "\n📄 Материалы (PDF/DOC):\n" ++ m ++ "\n"
  | none => text

/-- lessons_scheduler.send_welcome_and_lesson1 (lessons_scheduler.py 25-51).
Returns (state, delivered messages, raised): `raised` is true when the Python
coroutine ends in an exception (missing course, send failure, or a missing
enrollment row after ensure). Db writes performed before the exception are
kept, because every Db method commits on its own connection. -/
def send_welcome_and_lesson1 (sendOk : Int → String → Bool) (st : DbState) (now : Nat)
    (userId : Int) (courseId : String) : DbState × List Event × Bool :=
  match get_course st courseId with
  | none => (st, [], true)
  | some course =>
    match ensure_enrollment st now userId courseId with
    | .error _ => (st, [], true)
    | .ok (st1, enrOpt) =>
      let welcome := format_welcome course
      if sendOk userId welcome then
        let evs := [Event.msg userId welcome]
        match enrOpt with
        | none => (st1, evs, true)
        | some enr =>
          let nextIdx := if enr.next_lesson_index = 0 then 1 else enr.next_lesson_index
          if nextIdx > 1 then (st1, evs, false)
          else
            match get_lesson st1 courseId 1 with
            | none =>
              let t := "Урок 1 пока не добавлен администратором."
              if sendOk userId t then (st1, evs ++ [Event.msg userId t], false)
              else (st1, evs, true)
            | some lesson1 =>
              let t := format_lesson lesson1
              if sendOk userId t then
                let interval :=
                  if course.lesson_interval_days = 0 then 7 else course.lesson_interval_days
                (advance_enrollment_after_sent st1 now userId courseId 2 interval,
                  evs ++ [Event.msg userId t], false)
              else (st1, evs, true)
      else (st1, [], true)

/-- Shared tail of the webhook paid branches and of /mock/paid
(app_server.py 146-152, 174-179, 198-202): mark the ledger row paid, and when
a truthy user id comes back, grant the 30-day subscription and run
send_welcome_and_lesson1 (whose exception would surface as a 500 after the
grant is already committed). -/
def webhook_mark_paid_flow (sendOk : Int → String → Bool) (courseId : String)
    (paymentId : String) (now : Nat) (st : DbState) (evs : List Event) : HandlerResult :=
  let r := mark_payment_paid st now paymentId
  match r.1 with
  | some uid =>
    if uid ≠ 0 then
      let st2 := set_subscription r.2 now uid true (some 30)
      let w := send_welcome_and_lesson1 sendOk st2 now uid courseId
      if w.2.2 then ⟨.error (500, "Internal Server Error"), w.1, evs ++ w.2.1⟩
      else ⟨.ok .paid, w.1, evs ++ w.2.1⟩
    else ⟨.ok .paid, r.2, evs⟩
  | none => ⟨.ok .paid, r.2, evs⟩

/-- app_server._parse_x_signature (app_server.py 69-78): split on commas,
strip, last ts=/v1= assignment wins. -/
def parse_x_signature (xSignature : String) : Option String × Option String :=
  (py_split ',' xSignature).foldl
    (fun acc part0 =>
      let part := py_strip part0
      if py_startsWith "ts=" part then (some (py_drop 3 part), acc.2)
      else if py_startsWith "v1=" part then (acc.1, some (py_drop 3 part))
      else acc)
    (none, none)

/-- app_server.verify_mp_signature (app_server.py 81-87); hmacSha256Hex is the
hashlib/hmac primitive `secret → manifest → hexdigest`, and compare_digest of
two hex strings is string equality. -/
def verify_mp_signature (hmacSha256Hex : String → String → String)
    (secret xSignature xRequestId resourceId : String) : Bool :=
  match parse_x_signature xSignature with
  | (some ts, some v1) =>
    if ts = "" ∨ v1 = "" then false
    else
      hmacSha256Hex secret
          ("id:" ++ resourceId ++ ";request-id:" ++ xRequestId ++ ";ts:" ++ ts ++ ";") == v1
  | (some _, none) => false
  | (none, _) => false

/-- Body of app_server.mp_webhook after the signature gate (app_server.py
141-154). Its first statement is `db.find_payment_by_external_id(
mp_provider.name, external_id)` — a POSITIONAL call to a method whose
provider/external_id parameters are keyword-only (db.py 249) — so every
request reaching this point raises TypeError, which FastAPI answers with a
500 response. The lookup, the gateway fetch and the mark-paid block below
that line are unreachable: no lookup event is emitted and the store is left
untouched. -/
def mp_webhook_after_auth (st : DbState) : HandlerResult :=
  ⟨.error (500, "Internal Server Error"), st, []⟩

/-- app_server.mp_webhook (app_server.py 125-154). The webhook body only
contributes the external id; the request headers are `Option String` (absent
ones are `none`, and Python treats empty header strings as missing too).
A request that passes the id and signature checks crashes at the ledger
lookup (see mp_webhook_after_auth). -/
def mp_webhook (hmacSha256Hex : String → String → String) (_sendOk : Int → String → Bool)
    (mpWebhookSecret : Option String) (_courseId : String)
    (xSignature xRequestId : Option String) (externalId _remoteStatus : String)
    (_now : Nat) (st : DbState) : HandlerResult :=
  if externalId = "" then ⟨.error (400, "No payment id"), st, []⟩
  else
    match mpWebhookSecret with
    | some secret =>
      match xSignature, xRequestId with
      | some xSig, some xReq =>
        if xSig = "" ∨ xReq = "" then ⟨.error (401, "Missing signature headers"), st, []⟩
        else if verify_mp_signature hmacSha256Hex secret xSig xReq externalId then
          mp_webhook_after_auth st
        else ⟨.error (401, "Invalid signature"), st, []⟩
      | some _, none => ⟨.error (401, "Missing signature headers"), st, []⟩
      | none, _ => ⟨.error (401, "Missing signature headers"), st, []⟩
    | none => mp_webhook_after_auth st

/-- app_server.yk_webhook (app_server.py 157-185): no signature gate; when the
gateway is not configured the notification is acknowledged without a lookup.
Otherwise line 169 calls `db.find_payment_by_external_id(provider_name,
external_id)` positionally, but the Db method's parameters are keyword-only
(db.py 249): the handler raises TypeError (a 500 response) before the lookup,
the fetch, mark_payment_paid or the mark_payment_status('cancelled') write
can run, so the store is left untouched and no event is emitted. -/
def yk_webhook (_sendOk : Int → String → Bool) (ykConfigured : Bool) (_courseId : String)
    (externalId _remoteStatus : String) (_now : Nat) (st : DbState) : HandlerResult :=
  if externalId = "" then ⟨.error (400, "No payment id"), st, []⟩
  else if !ykConfigured then ⟨.ok .ignoredNotConfigured, st, []⟩
  else ⟨.error (500, "Internal Server Error"), st, []⟩

/-- app_server.mock_paid (app_server.py 188-204); the mock provider's own
in-memory state is outside the relational store and not modelled here. -/
def mock_paid_handler (sendOk : Int → String → Bool) (courseId : String)
    (paymentId : String) (now : Nat) (st : DbState) : HandlerResult :=
  match get_payment st paymentId with
  | none => ⟨.error (404, "Payment not found"), st, []⟩
  | some _ => webhook_mark_paid_flow sendOk courseId paymentId now st []

/-- PaymentService.refresh_and_mark_paid_if_needed (service.py 63-76) =
RedirectPaymentService.refresh_and_mark_paid_if_needed (service_redirect.py
71-86). `fetched` is the first component of the provider's
fetch_payment_status answer; a NULL or empty external id is falsy. -/
def refresh_and_mark_paid_if_needed (fetched : String) (st : DbState) (now : Nat)
    (paymentId : String) : Bool × DbState :=
  match get_payment st paymentId with
  | none => (false, st)
  | some p =>
    if p.status = "paid" then (true, st)
    else
      match p.external_id with
      | none => (false, st)
      | some e =>
        if e = "" then (false, st)
        else if fetched = "paid" then (true, (mark_payment_paid st now paymentId).2)
        else (false, st)

/-- The check_payment branch of bot.on_callback (bot.py 326-359), state effects
only (message edits and the admin notification have no store effect).
`providerKnown` is whether the row's provider string matches one of the three
dispatched services; `uid` is the pressing user's id, the fallback Python uses
when the row vanished. -/
def check_payment_callback (providerKnown : Bool) (fetched : String) (uid : Int)
    (st : DbState) (now : Nat) (paymentId : String) : DbState :=
  match get_payment st paymentId with
  | none => st
  | some _ =>
    let r := if providerKnown then refresh_and_mark_paid_if_needed fetched st now paymentId
             else (false, st)
    if !r.1 then r.2
    else
      let userId := match get_payment r.2 paymentId with
        | some p2 => p2.user_id
        | none => uid
      if userId ≠ 0 then set_subscription r.2 now userId true (some 30) else r.2

/-- The admin_approve branch of bot.on_callback (bot.py 368-387), state effects
only: unauthorized presses change nothing; otherwise mark paid and, for a
truthy user id, grant the 30-day subscription. -/
def admin_approve_callback (authorized : Bool) (st : DbState) (now : Nat)
    (paymentId : String) : DbState :=
  if !authorized then st
  else
    let r := mark_payment_paid st now paymentId
    match r.1 with
    | some uid => if uid ≠ 0 then set_subscription r.2 now uid true (some 30) else r.2
    | none => r.2

/-- Body of one lessons_scheduler_loop pass over an already-fetched due list
(lessons_scheduler.py 57-87). The whole for-loop sits inside one
try/except, so a failing send returns (state so far, events so far dropped at
the abort point, aborted = true) and the remaining entries are not visited. -/
def lessons_process (now : Nat) (sendOk : Int → String → Bool) :
    List Enrollment → DbState → DbState × List Event × Bool
  | [], st => (st, [], false)
  | e :: rest, st =>
    match get_course st e.course_id with
    | none => lessons_process now sendOk rest st
    | some course =>
      match get_lesson st e.course_id e.next_lesson_index with
      | none =>
        lessons_process now sendOk rest
          (advance_enrollment_after_sent st now e.user_id e.course_id
            e.next_lesson_index 1)
      | some lesson =>
        let text := format_lesson lesson
        if sendOk e.user_id text then
          let interval :=
            if course.lesson_interval_days = 0 then 7 else course.lesson_interval_days
          let r := lessons_process now sendOk rest
            (advance_enrollment_after_sent st now e.user_id e.course_id
              (e.next_lesson_index + 1) interval)
          (r.1, Event.msg e.user_id text :: r.2.1, r.2.2)
        else (st, [], true)

/-- One full pass of lessons_scheduler_loop: fetch the due list (limit 50),
then process it. -/
def lessons_scheduler_pass (sendOk : Int → String → Bool) (st : DbState) (now : Nat) :
    DbState × List Event × Bool :=
  lessons_process now sendOk (list_due_enrollments st now 50) st

/-- The payment-mutating operations the reconciliation claims quantify over:
the two webhooks, the mock-paid endpoint, the user's check_payment button and
the admin approval button. Gateway answers, header contents and authorization
are carried in the operation; process-wide configuration in `Env`. -/
inductive Op where
  | mpHook (xSignature xRequestId : Option String) (externalId remoteStatus : String) (now : Nat)
  | ykHook (externalId remoteStatus : String) (now : Nat)
  | mockPaid (paymentId : String) (now : Nat)
  | checkPayment (providerKnown : Bool) (fetched : String) (uid : Int) (paymentId : String) (now : Nat)
  | adminApprove (authorized : Bool) (paymentId : String) (now : Nat)

/-- Process-wide configuration and collaborators shared by all operations. -/
structure Env where
  hmacSha256Hex : String → String → String
  sendOk : Int → String → Bool
  mpWebhookSecret : Option String
  ykConfigured : Bool
  courseId : String

/-- State effect of one operation. -/
def applyOp (env : Env) (st : DbState) (op : Op) : DbState :=
  match op with
  | .mpHook xs xr ext rem now =>
    (mp_webhook env.hmacSha256Hex env.sendOk env.mpWebhookSecret env.courseId
      xs xr ext rem now st).state
  | .ykHook ext rem now =>
    (yk_webhook env.sendOk env.ykConfigured env.courseId ext rem now st).state
  | .mockPaid pid now => (mock_paid_handler env.sendOk env.courseId pid now st).state
  | .checkPayment pk f uid pid now => check_payment_callback pk f uid st now pid
  | .adminApprove auth pid now => admin_approve_callback auth st now pid

/-- C8: every gateway adapter's fetch-status mapping is total over gateway
status strings with values among pending/paid/cancelled; an unrecognized
status maps to 'pending', never to a terminal result; only 'approved'
(MercadoPago) resp. 'succeeded' (YooKassa) map to 'paid'; the mock provider
answers 'pending' for an unknown external id. -/
theorem C8_fetch_status_mapping_total_and_safe :
    ∀ s : String,
      (mp_map_status s = "pending" ∨ mp_map_status s = "paid" ∨
        mp_map_status s = "cancelled") ∧
      (mp_map_status s = "paid" ↔ py_lower s = "approved") ∧
      (py_lower s ∉ (["approved", "cancelled", "rejected", "refunded", "charged_back"] :
          List String) → mp_map_status s = "pending") ∧
      (yk_map_status s = "pending" ∨ yk_map_status s = "paid" ∨
        yk_map_status s = "cancelled") ∧
      (yk_map_status s = "paid" ↔ py_lower s = "succeeded") ∧
      (py_lower s ∉ (["succeeded", "canceled"] : List String) →
        yk_map_status s = "pending") ∧
      (∀ state : List (String × String), state.find? (fun kv => kv.1 == s) = none →
        mock_fetch_payment_status state s = ("pending", none)) := by
  intro s
  refine ⟨?_, ?_, ?_, ?_, ?_, ?_, ?_⟩
  · simp only [mp_map_status]; split_ifs <;> simp
  · simp only [mp_map_status]; split_ifs <;> simp_all
  · intro h; simp only [mp_map_status]; split_ifs <;> simp_all
  · simp only [yk_map_status]; split_ifs <;> simp
  · simp only [yk_map_status]; split_ifs <;> simp_all
  · intro h; simp only [yk_map_status]; split_ifs <;> simp_all
  · intro state h; simp [mock_fetch_payment_status, h]

/-- Witness for C8 at concrete unrecognized statuses. -/
theorem C8_fetch_status_mapping_total_and_safe_witness :
    mp_map_status "in_process" = "pending" ∧
    yk_map_status "waiting_for_capture" = "pending" ∧
    mock_fetch_payment_status [] "nope" = ("pending", none) := by
  refine ⟨?_, ?_, ?_⟩
  · exact (C8_fetch_status_mapping_total_and_safe "in_process").2.2.1 (by decide)
  · exact (C8_fetch_status_mapping_total_and_safe "waiting_for_capture").2.2.2.2.2.1
      (by decide)
  · exact (C8_fetch_status_mapping_total_and_safe "nope").2.2.2.2.2.2 [] rfl

/-- C9: granting a d-day entitlement always writes status 'active' with expiry
now + d days, whatever the prior row said (flat re-assignment, never additive
with remaining time), and repeating the very same call is idempotent on the
store. -/
theorem C9_set_subscription_flat_reassignment :
    ∀ (st : DbState) (now : Nat) (userId : Int) (d : Nat),
      get_subscription (set_subscription st now userId true (some d)) userId =
        some { status := "active", expires_at := some (now + d * daySeconds),
               updated_at := now } ∧
      set_subscription (set_subscription st now userId true (some d)) now userId true
          (some d) =
        set_subscription st now userId true (some d) := by
  intro st now userId d
  constructor
  · simp [get_subscription, set_subscription]
  · simp [set_subscription, List.filter_filter]

/-- C10: mark_payment_paid returns None and changes nothing for a missing row;
for an existing row it returns the row's user_id, leaves the store untouched
when the row was already 'paid', and otherwise rewrites exactly that row to
status 'paid' with paid_at = now. -/
theorem C10_mark_payment_paid_contract :
    ∀ (st : DbState) (now : Nat) (paymentId : String),
      (get_payment st paymentId = none →
        mark_payment_paid st now paymentId = (none, st)) ∧
      (∀ p, get_payment st paymentId = some p →
        (mark_payment_paid st now paymentId).1 = some p.user_id) ∧
      (∀ p, get_payment st paymentId = some p → p.status = "paid" →
        mark_payment_paid st now paymentId = (some p.user_id, st)) ∧
      (∀ p, get_payment st paymentId = some p → p.status ≠ "paid" →
        mark_payment_paid st now paymentId =
          (some p.user_id,
            { st with payments := st.payments.map (fun q =>
                if q.id = paymentId then { q with status := "paid", paid_at := some now }
                else q) })) := by
  intro st now paymentId
  refine ⟨?_, ?_, ?_, ?_⟩
  · intro h; simp [mark_payment_paid, h]
  · intro p h; simp [mark_payment_paid, h]; split_ifs <;> simp
  · intro p h hs; simp [mark_payment_paid, h, hs]
  · intro p h hs; simp [mark_payment_paid, h, hs]

/-- A concrete pending payment row used by several witnesses. -/
def wRow : Payment :=
  { id := "p", user_id := 7, provider := "mock", status := "pending",
    amount_cents := 100, currency := "RUB", plan := none, external_id := none,
    idempotency_key := none, created_at := 0, paid_at := none }

/-- A one-row store used by several witnesses. -/
def wState : DbState :=
  { payments := [wRow], subscriptions := [], courses := [], lessons := [],
    enrollments := [] }

/-- Witness for C10: the missing-row and existing-row cases at a concrete store. -/
theorem C10_mark_payment_paid_contract_witness :
    mark_payment_paid wState 5 "missing" = (none, wState) ∧
    (mark_payment_paid wState 5 "p").1 = some 7 := by
  refine ⟨?_, ?_⟩
  · exact (C10_mark_payment_paid_contract wState 5 "missing").1 (by decide)
  · exact (C10_mark_payment_paid_contract wState 5 "p").2.1 wRow (by decide)

/-- A stand-in HMAC collaborator used by closed witnesses. -/
def hmacZero : String → String → String := fun _ _ => "0"

/-- A messaging collaborator whose sends always succeed. -/
def sendAll : Int → String → Bool := fun _ _ => true

/-- C4 (code bug): the claim — and §7 of the spec (`UnknownPayment` is
"acknowledged and ignored, not an error to the caller") — requires a
successful acknowledged/ignored response with zero state mutation for a
notification whose external id matches no payment row. The code instead
calls the keyword-only Db.find_payment_by_external_id positionally
(app_server.py 141 and 169 against db.py 249), so both handlers raise
TypeError and answer 500 on every notification that passes the preliminary
checks, for unknown and known ids alike. The zero-mutation half of the claim
holds (the crash precedes any write, and no lookup is even performed); the
successful-response half does not. This theorem evaluates the embedded
handlers at such inputs. -/
theorem C4_unknown_external_id_answers_500 :
    ∀ (hm : String → String → String) (sendOk : Int → String → Bool)
      (courseId extId rem : String) (now : Nat) (st : DbState),
      extId ≠ "" →
      mp_webhook hm sendOk none courseId none none extId rem now st =
        ⟨.error (500, "Internal Server Error"), st, []⟩ ∧
      yk_webhook sendOk true courseId extId rem now st =
        ⟨.error (500, "Internal Server Error"), st, []⟩ := by
  intro hm sendOk courseId extId rem now st hne
  constructor
  · simp [mp_webhook, mp_webhook_after_auth, hne]
  · simp [yk_webhook, hne]

/-- Witness for C4's failing input: a store whose only row has no external id
(the incoming id "E" matches nothing), yet both webhooks answer 500 with the
store untouched instead of the acknowledged success the claim requires. -/
theorem C4_unknown_external_id_answers_500_witness :
    mp_webhook hmacZero sendAll none "c" none none "E" "approved" 3 wState =
      ⟨.error (500, "Internal Server Error"), wState, []⟩ ∧
    yk_webhook sendAll true "c" "E" "approved" 3 wState =
      ⟨.error (500, "Internal Server Error"), wState, []⟩ := by
  exact C4_unknown_external_id_answers_500 hmacZero sendAll "c" "E" "approved" 3 wState
    (by decide)

/-- C6: with a configured MercadoPago webhook secret, a missing signature
header (or request id header) or a non-verifying HMAC rejects the request with
a 401 before any ledger lookup: the store is unchanged and the event trace is
empty. -/
theorem C6_bad_signature_rejected_before_lookup :
    ∀ (hm : String → String → String) (sendOk : Int → String → Bool)
      (secret courseId extId rem : String) (now : Nat) (st : DbState)
      (xsig xreq : Option String),
      extId ≠ "" →
      ((xsig = none ∨ xreq = none) →
        mp_webhook hm sendOk (some secret) courseId xsig xreq extId rem now st =
          ⟨.error (401, "Missing signature headers"), st, []⟩) ∧
      (∀ xs xr, xsig = some xs → xreq = some xr → xs ≠ "" → xr ≠ "" →
        verify_mp_signature hm secret xs xr extId = false →
        mp_webhook hm sendOk (some secret) courseId xsig xreq extId rem now st =
          ⟨.error (401, "Invalid signature"), st, []⟩) := by
  intro hm sendOk secret courseId extId rem now st xsig xreq hne
  constructor
  · rintro (rfl | rfl)
    · cases xreq <;> simp [mp_webhook, hne]
    · cases xsig <;> simp [mp_webhook, hne]
  · rintro xs xr rfl rfl hxs hxr hv
    simp [mp_webhook, hne, hxs, hxr, hv]

/-- Witness for C6: a header with a wrong v1 digest, and a missing header. -/
theorem C6_bad_signature_rejected_before_lookup_witness :
    mp_webhook hmacZero sendAll (some "k") "c" (some "ts=1,v1=bad") (some "r") "E" "approved"
        3 wState =
      ⟨.error (401, "Invalid signature"), wState, []⟩ ∧
    mp_webhook hmacZero sendAll (some "k") "c" none (some "r") "E" "approved" 3 wState =
      ⟨.error (401, "Missing signature headers"), wState, []⟩ := by
  have h := C6_bad_signature_rejected_before_lookup hmacZero sendAll "k" "c" "E" "approved"
    3 wState (some "ts=1,v1=bad") (some "r") (by decide)
  have h2 := C6_bad_signature_rejected_before_lookup hmacZero sendAll "k" "c" "E" "approved"
    3 wState none (some "r") (by decide)
  exact ⟨h.2 "ts=1,v1=bad" "r" rfl rfl (by decide) (by decide) (by decide),
    h2.1 (Or.inl rfl)⟩

lemma mp_webhook_state_unchanged (hm : String → String → String)
    (sendOk : Int → String → Bool) (secretOpt : Option String) (courseId : String)
    (xsig xreq : Option String) (extId rem : String) (now : Nat) (st : DbState) :
    (mp_webhook hm sendOk secretOpt courseId xsig xreq extId rem now st).state = st := by
  unfold mp_webhook mp_webhook_after_auth
  repeat' split
  all_goals rfl

lemma yk_webhook_state_unchanged (sendOk : Int → String → Bool) (ykConf : Bool)
    (courseId extId rem : String) (now : Nat) (st : DbState) :
    (yk_webhook sendOk ykConf courseId extId rem now st).state = st := by
  unfold yk_webhook
  repeat' split
  all_goals rfl

/-- C7: the push path never marks a payment paid from the notification body:
if the authoritative gateway fetch does not map to 'paid', the MercadoPago
handler leaves the store untouched, and any row that reads 'paid' after the
YooKassa handler was already such a row of the original store. (In the real
code this holds a fortiori: both handlers crash at the ledger lookup and
never mark anything paid on the push path at all.) -/
theorem C7_paid_requires_gateway_verdict :
    ∀ (hm : String → String → String) (sendOk : Int → String → Bool)
      (secretOpt : Option String) (ykConf : Bool) (courseId extId rem : String)
      (now : Nat) (st : DbState) (xsig xreq : Option String),
      (mp_map_status rem ≠ "paid" →
        (mp_webhook hm sendOk secretOpt courseId xsig xreq extId rem now st).state = st) ∧
      (yk_map_status rem ≠ "paid" →
        ∀ q ∈ (yk_webhook sendOk ykConf courseId extId rem now st).state.payments,
          q.status = "paid" → q ∈ st.payments) := by
  intro hm sendOk secretOpt ykConf courseId extId rem now st xsig xreq
  constructor
  · intro _h
    exact mp_webhook_state_unchanged hm sendOk secretOpt courseId xsig xreq extId rem now st
  · intro _h q hq _hstat
    rw [yk_webhook_state_unchanged sendOk ykConf courseId extId rem now st] at hq
    exact hq

/-- A store with one already-paid YooKassa row, used by witnesses. -/
def wPaidRow : Payment :=
  { id := "p1", user_id := 42, provider := "yookassa", status := "paid",
    amount_cents := 2990, currency := "RUB", plan := some "mixed",
    external_id := some "E", idempotency_key := some "p1", created_at := 0,
    paid_at := some 50 }

/-- One-row store around wPaidRow. -/
def wPaidState : DbState :=
  { payments := [wPaidRow], subscriptions := [], courses := [], lessons := [],
    enrollments := [] }

/-- Witness for C7 with a gateway verdict of 'pending'. -/
theorem C7_paid_requires_gateway_verdict_witness :
    (mp_webhook hmacZero sendAll none "c" none none "E" "in_process" 3 wState).state =
      wState ∧
    wPaidRow ∈ wPaidState.payments := by
  have h := C7_paid_requires_gateway_verdict hmacZero sendAll none true "c" "E"
    "in_process" 3 wState none none
  have h2 := C7_paid_requires_gateway_verdict hmacZero sendAll none true "c" "E"
    "in_process" 3 wPaidState none none
  refine ⟨h.1 (by decide), h2.2 (by decide) wPaidRow ?_ (by decide)⟩
  · show wPaidRow ∈ (yk_webhook sendAll true "c" "E" "in_process" 3 wPaidState).state.payments
    decide

lemma find?_append_none {α : Type} (p : α → Bool) (l1 l2 : List α)
    (h : l1.find? p = none) : (l1 ++ l2).find? p = l2.find? p := by
  induction l1 with
  | nil => simp
  | cons a l ih =>
    simp only [List.cons_append]
    cases hpa : p a with
    | true => rw [List.find?_cons_of_pos _ hpa] at h; exact absurd h (by simp)
    | false =>
      rw [List.find?_cons_of_neg _ (by simp [hpa])] at h
      rw [List.find?_cons_of_neg _ (by simp [hpa])]
      exact ih h

lemma mark_payment_paid_already (st : DbState) (now : Nat) (pid : String) (p : Payment)
    (hget : get_payment st pid = some p) (hs : p.status = "paid") :
    mark_payment_paid st now pid = (some p.user_id, st) := by
  simp [mark_payment_paid, hget, hs]

lemma ensure_enrollment_fields (st : DbState) (now : Nat) (u : Int) (c : String)
    (st1 : DbState) (enrOpt : Option Enrollment)
    (h : ensure_enrollment st now u c = .ok (st1, enrOpt)) :
    st1.payments = st.payments ∧ st1.subscriptions = st.subscriptions ∧
      st1.courses = st.courses ∧ st1.lessons = st.lessons := by
  unfold ensure_enrollment at h
  split at h
  · exact absurd h (by simp)
  · split at h <;> (injection h with h2; injection h2 with h3 _; subst h3; simp)

lemma ensure_enrollment_some (st : DbState) (now : Nat) (u : Int) (c : String)
    (course : Course) (hc : get_course st c = some course) :
    ∃ st1 e, ensure_enrollment st now u c = .ok (st1, some e) := by
  cases he : get_enrollment st u c with
  | some e =>
    refine ⟨st, e, ?_⟩
    unfold ensure_enrollment
    rw [hc]
    simp [he]
  | none =>
    refine ⟨{ st with enrollments := st.enrollments ++
        [{ user_id := u, course_id := c, started_at := now,
           next_lesson_index := 1, next_lesson_at := now, last_sent_at := none }] },
      { user_id := u, course_id := c, started_at := now,
        next_lesson_index := 1, next_lesson_at := now, last_sent_at := none }, ?_⟩
    have he2 : st.enrollments.find?
        (fun e => e.user_id == u && e.course_id == c) = none := he
    have hfound : get_enrollment
        { st with enrollments := st.enrollments ++
            [{ user_id := u, course_id := c, started_at := now,
               next_lesson_index := 1, next_lesson_at := now, last_sent_at := none }] }
        u c =
        some { user_id := u, course_id := c, started_at := now,
               next_lesson_index := 1, next_lesson_at := now, last_sent_at := none } := by
      unfold get_enrollment
      rw [find?_append_none _ _ _ he2]
      simp [List.find?]
    unfold ensure_enrollment
    rw [hc]
    simp only [he]
    rw [hfound]

lemma send_welcome_and_lesson1_fields (sendOk : Int → String → Bool) (st : DbState)
    (now : Nat) (u : Int) (c : String) :
    (send_welcome_and_lesson1 sendOk st now u c).1.payments = st.payments ∧
      (send_welcome_and_lesson1 sendOk st now u c).1.subscriptions = st.subscriptions := by
  unfold send_welcome_and_lesson1
  split
  · exact ⟨rfl, rfl⟩
  · split
    · exact ⟨rfl, rfl⟩
    · rename_i st1v enrOptv heq
      obtain ⟨hp, hs, _, _⟩ := ensure_enrollment_fields st now u c st1v enrOptv heq
      repeat' split
      all_goals dsimp only
      all_goals repeat' split
      all_goals exact ⟨hp, hs⟩

lemma send_welcome_and_lesson1_ok (sendOk : Int → String → Bool) (st : DbState)
    (now : Nat) (u : Int) (c : String) (course : Course)
    (hsend : ∀ v t, sendOk v t = true) (hc : get_course st c = some course) :
    (send_welcome_and_lesson1 sendOk st now u c).2.2 = false ∧
      Event.msg u (format_welcome course) ∈
        (send_welcome_and_lesson1 sendOk st now u c).2.1 := by
  obtain ⟨st1, e, hens⟩ := ensure_enrollment_some st now u c course hc
  unfold send_welcome_and_lesson1
  rw [hc, hens]
  simp only [hsend, if_true]
  repeat' split
  all_goals dsimp only
  all_goals simp_all [hsend]

/-- C2 (amended): the webhook mark-paid path can never run (it answers 500 at
the broken ledger lookup); on the mark-paid paths that do run — GET /mock/paid
and the check_payment button — re-application to an already-'paid' payment
reports success and leaves the payment rows untouched, but it is NOT a no-op:
set_subscription runs again, resetting the entitlement expiry to the new
now + 30 days, and /mock/paid delivers the welcome notification again. -/
theorem C2_repaid_regrants_and_renotifies :
    ∀ (sendOk : Int → String → Bool) (courseId fetched pid : String) (now : Nat)
      (st : DbState) (p : Payment) (course : Course),
      (∀ v t, sendOk v t = true) →
      get_payment st pid = some p →
      p.status = "paid" →
      p.user_id ≠ 0 →
      get_course st courseId = some course →
      (mock_paid_handler sendOk courseId pid now st).resp = .ok .paid ∧
      (mock_paid_handler sendOk courseId pid now st).state.payments = st.payments ∧
      get_subscription (mock_paid_handler sendOk courseId pid now st).state p.user_id =
        some { status := "active", expires_at := some (now + 30 * daySeconds),
               updated_at := now } ∧
      Event.msg p.user_id (format_welcome course) ∈
        (mock_paid_handler sendOk courseId pid now st).events ∧
      get_subscription (check_payment_callback true fetched p.user_id st now pid)
          p.user_id =
        some { status := "active", expires_at := some (now + 30 * daySeconds),
               updated_at := now } := by
  intro sendOk courseId fetched pid now st p course hsend hget hstat huid hcourse
  have hc2 : get_course (set_subscription st now p.user_id true (some 30)) courseId =
      some course := hcourse
  have hok := send_welcome_and_lesson1_ok sendOk
    (set_subscription st now p.user_id true (some 30)) now p.user_id courseId course hsend hc2
  have hfields := send_welcome_and_lesson1_fields sendOk
    (set_subscription st now p.user_id true (some 30)) now p.user_id courseId
  have hrun : mock_paid_handler sendOk courseId pid now st =
      ⟨.ok .paid,
        (send_welcome_and_lesson1 sendOk (set_subscription st now p.user_id true (some 30))
          now p.user_id courseId).1,
        (send_welcome_and_lesson1 sendOk (set_subscription st now p.user_id true (some 30))
          now p.user_id courseId).2.1⟩ := by
    unfold mock_paid_handler webhook_mark_paid_flow
    rw [mark_payment_paid_already st now pid p hget hstat]
    simp [hget, huid, hok.1]
  have hrefresh : refresh_and_mark_paid_if_needed fetched st now pid = (true, st) := by
    unfold refresh_and_mark_paid_if_needed
    simp [hget, hstat]
  have hcheck : check_payment_callback true fetched p.user_id st now pid =
      set_subscription st now p.user_id true (some 30) := by
    unfold check_payment_callback
    simp [hget, hrefresh, huid]
  refine ⟨?_, ?_, ?_, ?_, ?_⟩
  · rw [hrun]
  · rw [hrun]
    show (send_welcome_and_lesson1 sendOk (set_subscription st now p.user_id true (some 30))
        now p.user_id courseId).1.payments = st.payments
    rw [hfields.1]
    rfl
  · rw [hrun]
    show get_subscription (send_welcome_and_lesson1 sendOk
        (set_subscription st now p.user_id true (some 30)) now p.user_id courseId).1
      p.user_id = _
    unfold get_subscription
    rw [hfields.2]
    simp [set_subscription, List.find?]
  · rw [hrun]
    exact hok.2
  · rw [hcheck]
    unfold get_subscription
    simp [set_subscription, List.find?]

/-- Course used in the concrete re-paid scenario. -/
def c2Course : Course :=
  { id := "c1", title := "T", welcome_video_url := some "https://w",
    lesson_interval_days := 7 }

/-- Already-paid MercadoPago payment row of the re-paid scenario. -/
def c2Row : Payment :=
  { id := "p1", user_id := 42, provider := "mercadopago_pix", status := "paid",
    amount_cents := 2990, currency := "BRL", plan := some "mixed",
    external_id := some "E", idempotency_key := some "p1", created_at := 0,
    paid_at := some 1000 }

/-- Enrollment already past lesson 1 for the re-paid scenario. -/
def c2Enr : Enrollment :=
  { user_id := 42, course_id := "c1", started_at := 0, next_lesson_index := 2,
    next_lesson_at := 999999, last_sent_at := some 10 }

/-- Prior entitlement of the re-paid scenario: granted at time 1000, expiring
at 1000 + 30 days = 2593000. -/
def c2Sub : Subscription :=
  { status := "active", expires_at := some 2593000, updated_at := 1000 }

/-- Store for the concrete re-paid scenario: the payment is already 'paid' and
the subscriber already holds the entitlement c2Sub. -/
def c2State : DbState :=
  { payments := [c2Row],
    subscriptions := [(42, c2Sub)],
    courses := [c2Course],
    lessons := [],
    enrollments := [c2Enr] }

/-- Counterexample to C2 as stated: replaying GET /mock/paid for the
already-paid payment at time 2000 reports success but extends the entitlement
expiry from 2593000 to 2000 + 30 days = 2594000 and re-delivers the welcome
message; the check_payment button likewise re-extends the expiry. -/
theorem C2_counterexample_repaid_not_idempotent :
    get_subscription c2State 42 =
      some { status := "active", expires_at := some 2593000, updated_at := 1000 } ∧
    (mock_paid_handler sendAll "c1" "p1" 2000 c2State).resp = .ok .paid ∧
    get_subscription (mock_paid_handler sendAll "c1" "p1" 2000 c2State).state 42 =
      some { status := "active", expires_at := some 2594000, updated_at := 2000 } ∧
    Event.msg 42 (format_welcome c2Course) ∈
      (mock_paid_handler sendAll "c1" "p1" 2000 c2State).events ∧
    get_subscription (check_payment_callback true "x" 42 c2State 2000 "p1") 42 =
      some { status := "active", expires_at := some 2594000, updated_at := 2000 } := by
  decide

/-- Witness for the amended C2 at the concrete replay scenario. -/
theorem C2_repaid_regrants_and_renotifies_witness :
    (mock_paid_handler sendAll "c1" "p1" 2000 c2State).resp = .ok .paid ∧
    (mock_paid_handler sendAll "c1" "p1" 2000 c2State).state.payments =
      c2State.payments ∧
    get_subscription (mock_paid_handler sendAll "c1" "p1" 2000 c2State).state (42 : Int) =
      some { status := "active", expires_at := some (2000 + 30 * daySeconds),
             updated_at := 2000 } ∧
    Event.msg 42 (format_welcome c2Course) ∈
      (mock_paid_handler sendAll "c1" "p1" 2000 c2State).events ∧
    get_subscription (check_payment_callback true "x" 42 c2State 2000 "p1") (42 : Int) =
      some { status := "active", expires_at := some (2000 + 30 * daySeconds),
             updated_at := 2000 } := by
  exact C2_repaid_regrants_and_renotifies sendAll "c1" "x" "p1" 2000 c2State c2Row
    c2Course (fun _ _ => rfl) (by decide) (by decide) (by decide) (by decide)

/-- Between two store states, every payment row of the later state descends
from a row of the earlier state with the same id whose status either is
unchanged or has moved to 'paid' — the only status the reachable code ever
writes (the yk_webhook 'cancelled' write sits behind the TypeError at
app_server.py 169 and can never run). -/
def payment_status_evolves (stA stB : DbState) : Prop :=
  ∀ q ∈ stB.payments, ∃ p ∈ stA.payments,
    p.id = q.id ∧ (q.status = p.status ∨ q.status = "paid")

lemma evolves_refl (st : DbState) : payment_status_evolves st st :=
  fun q hq => ⟨q, hq, rfl, Or.inl rfl⟩

lemma evolves_trans {a b c : DbState} (h1 : payment_status_evolves a b)
    (h2 : payment_status_evolves b c) : payment_status_evolves a c := by
  intro q hq
  obtain ⟨r, hr, hid, hst⟩ := h2 q hq
  obtain ⟨p, hp, hid2, hst2⟩ := h1 r hr
  refine ⟨p, hp, hid2.trans hid, ?_⟩
  rcases hst with h | h
  · rcases hst2 with g | g
    · exact Or.inl (h.trans g)
    · exact Or.inr (h.trans g)
  · exact Or.inr h

lemma evolves_of_payments_eq {a b : DbState} (h : b.payments = a.payments) :
    payment_status_evolves a b :=
  fun q hq => ⟨q, h ▸ hq, rfl, Or.inl rfl⟩

lemma mark_payment_paid_evolves (st : DbState) (now : Nat) (pid : String) :
    payment_status_evolves st (mark_payment_paid st now pid).2 := by
  unfold mark_payment_paid
  split
  · exact evolves_refl st
  · split
    · exact evolves_refl st
    · intro q hq
      rcases List.mem_map.1 hq with ⟨p0, hp0, rfl⟩
      by_cases hid : p0.id = pid
      · exact ⟨p0, hp0, by simp [hid], Or.inr (by simp [hid])⟩
      · exact ⟨p0, hp0, by simp [hid], Or.inl (by simp [hid])⟩

lemma webhook_mark_paid_flow_evolves (sendOk : Int → String → Bool)
    (courseId pid : String) (now : Nat) (st : DbState) (evs : List Event) :
    payment_status_evolves st (webhook_mark_paid_flow sendOk courseId pid now st evs).state := by
  have hm := mark_payment_paid_evolves st now pid
  unfold webhook_mark_paid_flow
  dsimp only
  split
  · rename_i uid heq
    split
    · have hw := send_welcome_and_lesson1_fields sendOk
        (set_subscription (mark_payment_paid st now pid).2 now uid true (some 30))
        now uid courseId
      have hpay : (send_welcome_and_lesson1 sendOk
          (set_subscription (mark_payment_paid st now pid).2 now uid true (some 30))
          now uid courseId).1.payments = (mark_payment_paid st now pid).2.payments := hw.1
      split
      · exact evolves_trans hm (evolves_of_payments_eq hpay)
      · exact evolves_trans hm (evolves_of_payments_eq hpay)
    · exact hm
  · exact hm

lemma mp_webhook_evolves (hm : String → String → String) (sendOk : Int → String → Bool)
    (secretOpt : Option String) (courseId : String) (xsig xreq : Option String)
    (extId rem : String) (now : Nat) (st : DbState) :
    payment_status_evolves st
      (mp_webhook hm sendOk secretOpt courseId xsig xreq extId rem now st).state := by
  rw [mp_webhook_state_unchanged]
  exact evolves_refl st

lemma yk_webhook_evolves (sendOk : Int → String → Bool) (ykConf : Bool)
    (courseId extId rem : String) (now : Nat) (st : DbState) :
    payment_status_evolves st (yk_webhook sendOk ykConf courseId extId rem now st).state := by
  rw [yk_webhook_state_unchanged]
  exact evolves_refl st

lemma mock_paid_evolves (sendOk : Int → String → Bool) (courseId pid : String)
    (now : Nat) (st : DbState) :
    payment_status_evolves st (mock_paid_handler sendOk courseId pid now st).state := by
  unfold mock_paid_handler
  split
  · exact evolves_refl st
  · exact webhook_mark_paid_flow_evolves sendOk courseId pid now st []

lemma refresh_evolves (fetched : String) (st : DbState) (now : Nat) (pid : String) :
    payment_status_evolves st (refresh_and_mark_paid_if_needed fetched st now pid).2 := by
  unfold refresh_and_mark_paid_if_needed
  split
  · exact evolves_refl st
  · split
    · exact evolves_refl st
    · split
      · exact evolves_refl st
      · split
        · exact evolves_refl st
        · split
          · exact mark_payment_paid_evolves st now pid
          · exact evolves_refl st

lemma check_payment_evolves (pk : Bool) (fetched : String) (uid : Int) (st : DbState)
    (now : Nat) (pid : String) :
    payment_status_evolves st (check_payment_callback pk fetched uid st now pid) := by
  unfold check_payment_callback
  split
  · exact evolves_refl st
  · dsimp only
    split
    · split
      · exact refresh_evolves fetched st now pid
      · split
        · exact evolves_trans (refresh_evolves fetched st now pid)
            (evolves_of_payments_eq rfl)
        · exact refresh_evolves fetched st now pid
    · split
      · exact evolves_refl st
      · split
        · exact evolves_of_payments_eq rfl
        · exact evolves_refl st

lemma admin_approve_evolves (auth : Bool) (st : DbState) (now : Nat) (pid : String) :
    payment_status_evolves st (admin_approve_callback auth st now pid) := by
  have hm := mark_payment_paid_evolves st now pid
  unfold admin_approve_callback
  split
  · exact evolves_refl st
  · dsimp only
    split
    · split
      · exact evolves_trans hm (evolves_of_payments_eq rfl)
      · exact hm
    · exact hm

lemma applyOp_evolves (env : Env) (st : DbState) (op : Op) :
    payment_status_evolves st (applyOp env st op) := by
  cases op with
  | mpHook xs xr ext rem now => exact mp_webhook_evolves _ _ _ _ _ _ _ _ _ _
  | ykHook ext rem now => exact yk_webhook_evolves _ _ _ _ _ _ _
  | mockPaid pid now => exact mock_paid_evolves _ _ _ _ _
  | checkPayment pk f uid pid now => exact check_payment_evolves _ _ _ _ _ _
  | adminApprove auth pid now => exact admin_approve_evolves _ _ _ _

/-- C1 (amended): both webhooks crash with TypeError (500) at the ledger
lookup before any write, so the only reachable status write is
mark_payment_paid, via /mock/paid, check_payment and admin approval (the
mark_payment_status('cancelled') call site is unreachable dead code). Hence
across any sequence of the listed operations a payment row's status either
stays what it was or moves to 'paid': nothing ever moves a row out of 'paid',
and any status other than 'paid' — 'pending', 'cancelled', 'expired' — in the
final store was already that row's status initially. But 'cancelled' is NOT
terminal: mark_payment_paid moves a 'cancelled' (or 'expired') row to 'paid',
e.g. one admin-approve click on a cancelled payment (see the counterexample). -/
theorem C1_statuses_only_ever_move_to_paid :
    ∀ (env : Env) (ops : List Op) (st : DbState),
      payment_status_evolves st (ops.foldl (applyOp env) st) ∧
      (∀ q ∈ (ops.foldl (applyOp env) st).payments, q.status ≠ "paid" →
        ∃ p ∈ st.payments, p.id = q.id ∧ p.status = q.status) := by
  intro env ops st
  have hmain : payment_status_evolves st (ops.foldl (applyOp env) st) := by
    induction ops generalizing st with
    | nil => exact evolves_refl st
    | cons op rest ih =>
      rw [List.foldl_cons]
      exact evolves_trans (applyOp_evolves env st op) (ih (applyOp env st op))
  refine ⟨hmain, ?_⟩
  intro q hq hnp
  obtain ⟨p, hp, hid, hst⟩ := hmain q hq
  rcases hst with h | h
  · exact ⟨p, hp, hid, h.symm⟩
  · exact absurd h hnp

/-- Environment used by the concrete reconciliation scenarios. -/
def c1Env : Env :=
  { hmacSha256Hex := hmacZero, sendOk := sendAll, mpWebhookSecret := none,
    ykConfigured := true, courseId := "c" }

/-- A cancelled payment row: the gateway (or an admin) once cancelled it. -/
def cancelledRow : Payment :=
  { id := "p2", user_id := 42, provider := "yookassa", status := "cancelled",
    amount_cents := 2990, currency := "RUB", plan := some "mixed",
    external_id := some "E2", idempotency_key := some "p2", created_at := 0,
    paid_at := none }

/-- One-row store around cancelledRow. -/
def cancelledState : DbState :=
  { payments := [cancelledRow], subscriptions := [], courses := [], lessons := [],
    enrollments := [] }

/-- Counterexample to C1 as stated: one authorized admin-approve click on a
'cancelled' payment moves the row to 'paid' — a transition out of the
terminal state 'cancelled' (db.py 263 only shields rows already 'paid'). -/
theorem C1_counterexample_cancelled_row_paid :
    (get_payment cancelledState "p2").map Payment.status = some "cancelled" ∧
    (get_payment (applyOp c1Env cancelledState (Op.adminApprove true "p2" 100)) "p2").map
        Payment.status =
      some "paid" := by
  decide

/-- Witness for the amended C1: the row that became 'paid' descends from the
'cancelled' row of the initial store. -/
theorem C1_statuses_only_ever_move_to_paid_witness :
    ∃ p ∈ cancelledState.payments, p.id = "p2" ∧
      ("paid" = p.status ∨ "paid" = "paid") := by
  have h := C1_statuses_only_ever_move_to_paid c1Env [Op.adminApprove true "p2" 100]
    cancelledState
  have h2 := h.1 { cancelledRow with status := "paid", paid_at := some 100 } (by decide)
  obtain ⟨p, hp, hid, hst⟩ := h2
  exact ⟨p, hp, hid, hst⟩

/-- C3 (amended): inside one scheduler pass, a failing send for the entry
following an already-processed prefix aborts the whole pass (the try/except
wraps the entire for-loop): the store and event trace stay exactly as they
were after the prefix, so the failing entry and every later due entry are NOT
advanced in that pass; the prefix entries keep their (individually committed)
advancement. -/
theorem C3_send_failure_aborts_remaining_entries :
    ∀ (now : Nat) (sendOk : Int → String → Bool) (pre : List Enrollment)
      (e : Enrollment) (post : List Enrollment) (st : DbState) (course : Course)
      (lesson : Lesson),
      (lessons_process now sendOk pre st).2.2 = false →
      get_course (lessons_process now sendOk pre st).1 e.course_id = some course →
      get_lesson (lessons_process now sendOk pre st).1 e.course_id
          e.next_lesson_index = some lesson →
      sendOk e.user_id (format_lesson lesson) = false →
      lessons_process now sendOk (pre ++ e :: post) st =
        ((lessons_process now sendOk pre st).1,
          (lessons_process now sendOk pre st).2.1, true) := by
  intro now sendOk pre
  induction pre with
  | nil =>
    intro e post st course lesson hfalse hc hl hsend
    replace hc : get_course st e.course_id = some course := hc
    replace hl : get_lesson st e.course_id e.next_lesson_index = some lesson := hl
    show lessons_process now sendOk (e :: post) st = (st, [], true)
    conv_lhs => rw [lessons_process]
    rw [hc]
    dsimp only
    rw [hl]
    dsimp only
    rw [hsend]
    rfl
  | cons x xs ih =>
    intro e post st course lesson hfalse hc hl hsend
    cases hxc : get_course st x.course_id with
    | none =>
      have hstep : ∀ l, lessons_process now sendOk (x :: l) st =
          lessons_process now sendOk l st := by
        intro l
        conv_lhs => rw [lessons_process]
        rw [hxc]
      rw [hstep xs] at hfalse hc hl
      rw [List.cons_append, hstep (xs ++ e :: post), hstep xs]
      exact ih e post st course lesson hfalse hc hl hsend
    | some c0 =>
      cases hxl : get_lesson st x.course_id x.next_lesson_index with
      | none =>
        have hstep : ∀ l, lessons_process now sendOk (x :: l) st =
            lessons_process now sendOk l
              (advance_enrollment_after_sent st now x.user_id x.course_id
                x.next_lesson_index 1) := by
          intro l
          conv_lhs => rw [lessons_process]
          rw [hxc]
          dsimp only
          rw [hxl]
        rw [hstep xs] at hfalse hc hl
        rw [List.cons_append, hstep (xs ++ e :: post), hstep xs]
        exact ih e post _ course lesson hfalse hc hl hsend
      | some l0 =>
        cases hxs : sendOk x.user_id (format_lesson l0) with
        | false =>
          have hstep : (lessons_process now sendOk (x :: xs) st).2.2 = true := by
            conv_lhs => rw [lessons_process]
            rw [hxc]
            dsimp only
            rw [hxl]
            dsimp only
            rw [hxs]
            rfl
          rw [hstep] at hfalse
          exact absurd hfalse (by decide)
        | true =>
          have hstep : ∀ l, lessons_process now sendOk (x :: l) st =
              ((lessons_process now sendOk l
                  (advance_enrollment_after_sent st now x.user_id x.course_id
                    (x.next_lesson_index + 1)
                    (if c0.lesson_interval_days = 0 then 7
                     else c0.lesson_interval_days))).1,
                Event.msg x.user_id (format_lesson l0) ::
                  (lessons_process now sendOk l
                    (advance_enrollment_after_sent st now x.user_id x.course_id
                      (x.next_lesson_index + 1)
                      (if c0.lesson_interval_days = 0 then 7
                       else c0.lesson_interval_days))).2.1,
                (lessons_process now sendOk l
                  (advance_enrollment_after_sent st now x.user_id x.course_id
                    (x.next_lesson_index + 1)
                    (if c0.lesson_interval_days = 0 then 7
                     else c0.lesson_interval_days))).2.2) := by
            intro l
            conv_lhs => rw [lessons_process]
            rw [hxc]
            dsimp only
            rw [hxl]
            dsimp only
            rw [hxs]
            rfl
          rw [hstep xs] at hfalse hc hl
          dsimp only at hfalse hc hl
          rw [List.cons_append, hstep (xs ++ e :: post), hstep xs]
          dsimp only
          rw [ih e post _ course lesson hfalse hc hl hsend]

/-- Positional lookup after the advancement UPDATE: the enrollment row keyed
(u, c) after advance_enrollment_after_sent is exactly the old row with the new
index, due time and last_sent_at. -/
lemma get_enrollment_advance (st : DbState) (now : Nat) (u : Int) (c : String)
    (idx : Int) (d : Nat) :
    get_enrollment (advance_enrollment_after_sent st now u c idx d) u c =
      (get_enrollment st u c).map (fun e =>
        { e with next_lesson_index := idx, next_lesson_at := now + d * daySeconds,
                 last_sent_at := some now }) := by
  unfold get_enrollment advance_enrollment_after_sent
  dsimp only
  generalize st.enrollments = l
  induction l with
  | nil => rfl
  | cons a l ih =>
    by_cases h : a.user_id = u ∧ a.course_id = c
    · obtain ⟨h1, h2⟩ := h
      simp [List.find?_cons, h1, h2]
    · have h1 : (a.user_id == u && a.course_id == c) = false := by
        rcases not_and_or.1 h with h1 | h1 <;> simp [h1]
      simp [List.find?_cons, if_neg h, h1, ih]

/-- C5 (amended): a due entry whose next lesson is missing from the catalog is
NOT advanced past the missing index; the pass keeps next_lesson_index
unchanged and pushes next_lesson_at to now + 1 day, so the same index is
retried a day later (not on every pass, and never skipped). -/
theorem C5_missing_lesson_retried_next_day :
    ∀ (now : Nat) (sendOk : Int → String → Bool) (e : Enrollment) (st : DbState)
      (course : Course),
      get_course st e.course_id = some course →
      get_lesson st e.course_id e.next_lesson_index = none →
      get_enrollment st e.user_id e.course_id = some e →
      lessons_process now sendOk [e] st =
        (advance_enrollment_after_sent st now e.user_id e.course_id
          e.next_lesson_index 1, [], false) ∧
      get_enrollment (lessons_process now sendOk [e] st).1 e.user_id e.course_id =
        some { e with next_lesson_at := now + 1 * daySeconds,
                      last_sent_at := some now } ∧
      now < now + 1 * daySeconds := by
  intro now sendOk e st course hc hl he
  have h1 : lessons_process now sendOk [e] st =
      (advance_enrollment_after_sent st now e.user_id e.course_id
        e.next_lesson_index 1, [], false) := by
    simp only [lessons_process, hc, hl]
  refine ⟨h1, ?_, ?_⟩
  · rw [h1]
    dsimp only
    rw [get_enrollment_advance st now e.user_id e.course_id e.next_lesson_index 1, he]
    rfl
  · have hd : 1 * daySeconds = 86400 := by decide
    rw [hd]
    omega

/-- Course of the concrete scheduler scenarios. -/
def schedCourse : Course :=
  { id := "c", title := "C", welcome_video_url := none, lesson_interval_days := 7 }

/-- Lesson 1 of the concrete scheduler scenarios. -/
def schedLesson1 : Lesson :=
  { course_id := "c", lesson_index := 1, title := "L1", video_url := "v1",
    materials_url := none }

/-- First due entry (user 1, due at 10). -/
def schedE1 : Enrollment :=
  { user_id := 1, course_id := "c", started_at := 0, next_lesson_index := 1,
    next_lesson_at := 10, last_sent_at := none }

/-- Second due entry (user 2, due at 20). -/
def schedE2 : Enrollment :=
  { user_id := 2, course_id := "c", started_at := 0, next_lesson_index := 1,
    next_lesson_at := 20, last_sent_at := none }

/-- Store with two due entries, both with existing lesson content. -/
def c3State : DbState :=
  { payments := [], subscriptions := [], courses := [schedCourse],
    lessons := [schedLesson1], enrollments := [schedE1, schedE2] }

/-- A messaging collaborator whose send raises exactly for user 1. -/
def sendFail1 : Int → String → Bool := fun u _ => u != 1

/-- Counterexample to C3 as stated: both entries are due (K = 1, N = 2), the
send for entry 1 raises, and the pass ends with the store completely
unchanged — entry 2 is neither processed nor advanced in that pass. -/
theorem C3_counterexample_other_entries_not_advanced :
    list_due_enrollments c3State 100 50 = [schedE1, schedE2] ∧
    lessons_scheduler_pass sendFail1 c3State 100 = (c3State, [], true) := by
  decide

/-- Witness for the amended C3 with an empty processed prefix. -/
theorem C3_send_failure_aborts_remaining_entries_witness :
    lessons_process 100 sendFail1 [schedE1, schedE2] c3State = (c3State, [], true) := by
  exact C3_send_failure_aborts_remaining_entries 100 sendFail1 [] schedE1 [schedE2]
    c3State schedCourse schedLesson1 (by decide) (by decide) (by decide) (by decide)

/-- Entry stuck at missing lesson index 3 (the catalog only has lesson 1). -/
def schedE3 : Enrollment :=
  { user_id := 5, course_id := "c", started_at := 0, next_lesson_index := 3,
    next_lesson_at := 10, last_sent_at := none }

/-- Store whose only due entry points at the nonexistent lesson 3. -/
def c5State : DbState :=
  { payments := [], subscriptions := [], courses := [schedCourse],
    lessons := [schedLesson1], enrollments := [schedE3] }

/-- Counterexample to C5 as stated: after the pass the entry still has
next_lesson_index 3 (the claim demands 4); it was processed (next_lesson_at
moved to now + 1 day), just not advanced past the missing index. -/
theorem C5_counterexample_index_stays :
    (get_enrollment (lessons_scheduler_pass sendAll c5State 100).1 5 "c").map
        Enrollment.next_lesson_index = some 3 ∧
    (get_enrollment (lessons_scheduler_pass sendAll c5State 100).1 5 "c").map
        Enrollment.next_lesson_at = some (100 + daySeconds) := by
  decide

/-- Witness for the amended C5 at the concrete stuck entry. -/
theorem C5_missing_lesson_retried_next_day_witness :
    lessons_process 100 sendAll [schedE3] c5State =
      (advance_enrollment_after_sent c5State 100 5 "c" 3 1, [], false) ∧
    get_enrollment (lessons_process 100 sendAll [schedE3] c5State).1 5 "c" =
      some { schedE3 with next_lesson_at := 100 + 1 * daySeconds,
                          last_sent_at := some 100 } ∧
    100 < 100 + 1 * daySeconds := by
  exact C5_missing_lesson_retried_next_day 100 sendAll schedE3 c5State schedCourse
    (by decide) (by decide) (by decide)

end CoursesBot
